import Mathlib

/-!
Verification of `marshmallow_jsonapi/fields.py` (the `Relationship` field of
marshmallow-jsonapi): a shallow embedding of the module's data model and
operations, followed by theorems settling the specification claims.

Python values that flow through the field (related objects, request payloads,
serialized output) are modelled by the inductive type `Value`; Python dicts
become ordered association lists, which matches the ordered `dict_class`
containers the code builds.  Exceptions are modelled with `Except PyError`;
the mutable `root.included_data` list is threaded through `_serialize`
explicitly, so that the state of the shared collection at the moment an
exception escapes is part of the function's result.
-/

set_option autoImplicit false

namespace MarshmallowJsonapi

/-- A Python value as used by the module: `None`, ints, strings, lists and
(ordered) dicts with string keys, plus marshmallow's `missing` singleton. -/
inductive Value where
  | vnull
  | vmissing
  | vint (n : Int)
  | vstr (s : String)
  | vlist (xs : List Value)
  | vmap (entries : List (String × Value))

/-- The kinds of exception the embedded code can raise. -/
inductive PyError where
  | validation (msgs : List String)
  | typeError (msg : String)
  | attributeError (msg : String)
  | keyError (key : String)
  | valueError (msg : String)
  deriving DecidableEq

/-- Python `v is None`. -/
def Value.isNull : Value → Bool
  | .vnull => true
  | _ => false

/-- Python `==` between an arbitrary value and a string-or-`None`
(the comparisons the module performs: an incoming `type` value against
`self.type_`, a list element against a string key).  Python equality
across distinct types among these shapes is `False`. -/
def valueEqOptStr (v : Value) (t : Option String) : Bool :=
  match v, t with
  | .vstr s, some u => s = u
  | .vnull, none => true
  | _, _ => false

/-- First binding of a key in an association list (Python dicts have unique
keys, so first = only). -/
def assocFind {α : Type} (m : List (String × α)) (k : String) : Option α :=
  (m.find? (fun p => p.1 = k)).map Prod.snd

def mapHasKey (m : List (String × Value)) (k : String) : Bool :=
  m.any (fun p => p.1 = k)

def mapLookup (m : List (String × Value)) (k : String) : Option Value :=
  assocFind m k

/-- Python type name, for error messages. -/
def pyTypeName : Value → String
  | .vnull => "NoneType"
  | .vmissing => "_Missing"
  | .vint _ => "int"
  | .vstr _ => "str"
  | .vlist _ => "list"
  | .vmap _ => "dict"

/-- Whether `need` occurs as a contiguous substring of `hay`. -/
def strContainsSub (hay need : String) : Bool :=
  let hs := hay.toList
  let ns := need.toList
  (List.range (hs.length + 1)).any (fun i => ns = (hs.drop i).take ns.length)

/-- Python `k in v` for a string key `k`: dict key membership, list element
membership, substring test on strings; a `TypeError` on non-iterables. -/
def pyContains (v : Value) (k : String) : Except PyError Bool :=
  match v with
  | .vmap m => .ok (mapHasKey m k)
  | .vlist xs => .ok (xs.any (fun x => valueEqOptStr x (some k)))
  | .vstr s => .ok (strContainsSub s k)
  | _ => .error (.typeError ("argument of type \x27" ++ pyTypeName v ++ "\x27 is not iterable"))

/-- Python `v[k]` for a string key `k`. -/
def pyGetItem (v : Value) (k : String) : Except PyError Value :=
  match v with
  | .vmap m =>
    match mapLookup m k with
    | some x => .ok x
    | none => .error (.keyError k)
  | .vstr _ => .error (.typeError "string indices must be integers")
  | .vlist _ => .error (.typeError "list indices must be integers")
  | _ => .error (.typeError ("\x27" ++ pyTypeName v ++ "\x27 object is not subscriptable"))

/-- Python `v.get(k)` (dicts only; default `None`). -/
def pyDictGet (v : Value) (k : String) : Except PyError Value :=
  match v with
  | .vmap m => .ok ((mapLookup m k).getD .vnull)
  | _ => .error (.attributeError ("\x27" ++ pyTypeName v ++ "\x27 object has no attribute \x27get\x27"))

/-- Python iteration `for x in v`: lists yield elements, dicts yield keys,
strings yield one-character strings; a `TypeError` otherwise. -/
def pyIter (v : Value) : Except PyError (List Value) :=
  match v with
  | .vlist xs => .ok xs
  | .vmap m => .ok (m.map (fun p => Value.vstr p.1))
  | .vstr s => .ok (s.toList.map (fun c => Value.vstr (String.singleton c)))
  | _ => .error (.typeError ("\x27" ++ pyTypeName v ++ "\x27 object is not iterable"))

/-- Python `str(v)` on the value shapes the module stringifies. -/
def pyStr : Value → String
  | .vnull => "None"
  | .vmissing => "<marshmallow.missing>"
  | .vint n => toString n
  | .vstr s => s
  | .vlist _ => "<list>"
  | .vmap _ => "<dict>"

/-- `stringify` from fields.py: `str(value)` for non-`None` values, `None`
passed through. -/
def stringify (value : Value) : Value :=
  if value.isNull then value else .vstr (pyStr value)

/-- `key.split(c)` on an exploded string (Python `str.split` with a
one-character separator; the result is never empty). -/
def splitOnChar (c : Char) : List Char → List (List Char)
  | [] => [[]]
  | d :: rest =>
    let r := splitOnChar c rest
    if d = c then [] :: r
    else
      match r with
      | [] => [[d]]
      | h :: t => (d :: h) :: t

/-- One step of `marshmallow.utils._get_value_for_key`: `obj[key]` if it
succeeds, else the default (our objects are plain values, so the
`getattr` fallback always fails). -/
def getValueForKey (key : String) (obj : Value) (default : Value) : Value :=
  match obj with
  | .vmap m =>
    match mapLookup m key with
    | some v => v
    | none => default
  | _ => default

/-- `marshmallow.utils._get_value_for_keys`: fold a dotted path, reusing
the same default at every step. -/
def getValueForKeys : List String → Value → Value → Value
  | [], obj, _ => obj
  | [k], obj, default => getValueForKey k obj default
  | k :: k2 :: rest, obj, default =>
    getValueForKeys (k2 :: rest) (getValueForKey k obj default) default

/-- `marshmallow.utils.get_value(key, obj, default)`: split the key on
dots and walk the path. -/
def get_value (key : String) (obj : Value) (default : Value) : Value :=
  getValueForKeys ((splitOnChar (Char.ofNat 46) key.toList).map List.asString) obj default

/-- `self.type_` as the value stored under `"type"` in a linkage object
(`None` when unset). -/
def optStrValue : Option String → Value
  | some s => .vstr s
  | none => .vnull

/-- Truthiness of an optional string (Python: `None` and `""` are falsy). -/
def optStrTruthy : Option String → Bool
  | some s => s ≠ ""
  | none => false

def lbrace : Char := Char.ofNat 123

def rbrace : Char := Char.ofNat 125

/-- Core loop of Python `str.format` restricted to the module's usage:
simple named placeholders, `\x7b\x7b` / `\x7d\x7d` escapes, values rendered
with `str`.  The second argument accumulates a placeholder name while one
is open. -/
def formatGo (kwargs : List (String × Value)) :
    List Char → Option String → String → Except PyError String
  | [], none, acc => .ok acc
  | [], some _, _ => .error (.valueError "Single \x7b encountered in format string")
  | c :: rest, none, acc =>
    if c = lbrace then
      match rest with
      | d :: rest2 =>
        if d = lbrace then formatGo kwargs rest2 none (acc.push lbrace)
        else formatGo kwargs (d :: rest2) (some "") acc
      | [] => .error (.valueError "Single \x7b encountered in format string")
    else if c = rbrace then
      match rest with
      | d :: rest2 =>
        if d = rbrace then formatGo kwargs rest2 none (acc.push rbrace)
        else .error (.valueError "Single \x7d encountered in format string")
      | [] => .error (.valueError "Single \x7d encountered in format string")
    else formatGo kwargs rest none (acc.push c)
  | c :: rest, some name, acc =>
    if c = rbrace then
      match assocFind kwargs name with
      | some v => formatGo kwargs rest none (acc ++ pyStr v)
      | none => .error (.keyError name)
    else formatGo kwargs rest (some (name.push c)) acc

/-- Python `template.format(**kwargs)` as used on the URL templates. -/
def strFormat (template : String) (kwargs : List (String × Value)) : Except PyError String :=
  formatGo kwargs template.toList none ""

/-- `"<author.id>"`-style parameter values: the dotted path when the string
is wrapped in angle brackets, `none` otherwise. -/
def angleBracketPath (s : String) : Option String :=
  let cs := s.toList
  match cs with
  | c :: _ :: _ =>
    if c = Char.ofNat 60 ∧ cs.getLast? = some (Char.ofNat 62) then
      some ((cs.drop 1).dropLast.asString)
    else none
  | _ => none

/-- Modelled from the spec: `resolve_params` lives in
`marshmallow_jsonapi/utils.py`, which is not among the provided sources.
Spec section 4.2: for each entry of the parameter mapping, a value that is a
string wrapped in angle brackets is a dotted attribute path resolved by
key lookup against the object; any other value is used unchanged; a bad
attribute path is a hard failure (`AttributeError`). -/
def resolve_params (obj : Value) (params : List (String × Value)) :
    Except PyError (List (String × Value)) :=
  params.mapM (fun p =>
    match p.2 with
    | .vstr s =>
      match angleBracketPath s with
      | some path =>
        match get_value path obj .vmissing with
        | .vmissing => .error (.attributeError (path ++ " is not a valid attribute"))
        | v => .ok (p.1, v)
      | none => .ok p
    | _ => .ok p)

/-- The outcome of `Schema.dump` in marshmallow 2.x: a `MarshalResult`
with the serialized data and the collected validation errors. -/
structure MarshalResult where
  data : Value
  errors : List String

/-- The related schema, reduced to its `dump` behaviour (schema resolution
from an instance, class or registry name is outside this module's claims:
what the field uses is `self.schema.dump`). -/
structure Schema where
  dump : Value → MarshalResult

/-- The `Relationship` field: the state `__init__` stores on `self`. -/
structure Relationship where
  related_url : String
  related_url_kwargs : List (String × Value)
  self_url : String
  self_url_kwargs : List (String × Value)
  many : Bool
  include_resource_object : Bool
  include_data : Bool
  schema : Option Schema
  type_ : Option String
  id_field : String

/-- `Relationship.__init__`: validates the configuration and either raises
`ValueError` (the `.error` case) or constructs the field.  Argument order
and defaults follow the source; `type_`, `id_field` and `schema` use
Python truthiness (`None` and `""` are falsy). -/
def Relationship.init
    (related_url : String) (related_url_kwargs : List (String × Value))
    (self_url : String) (self_url_kwargs : List (String × Value))
    (include_resource_object : Bool) (include_data : Bool)
    (schema : Option Schema) (many : Bool)
    (type_ : Option String) (id_field : Option String) :
    Except String Relationship :=
  if include_resource_object ∧ ¬optStrTruthy type_ then
    .error "include_resource_object=True requires the type_ argument."
  else if include_data ∧ ¬optStrTruthy type_ then
    .error "include_data=True requires the type_ argument."
  else if include_data ∧ schema.isNone then
    .error "include_data=True requires the schema argument."
  else
    .ok {
      related_url := related_url
      related_url_kwargs := related_url_kwargs
      self_url := self_url
      self_url_kwargs := self_url_kwargs
      many := many
      include_resource_object := include_resource_object || include_data
      include_data := include_data
      schema := schema
      type_ := type_
      id_field := if optStrTruthy id_field then id_field.getD "id" else "id" }

/-- `Relationship.get_related_url`: `None` for a falsy template, otherwise
the template formatted with the resolved params. -/
def Relationship.get_related_url (r : Relationship) (obj : Value) :
    Except PyError (Option String) :=
  if r.related_url ≠ "" then
    match resolve_params obj r.related_url_kwargs with
    | .error e => .error e
    | .ok kwargs =>
      match strFormat r.related_url kwargs with
      | .error e => .error e
      | .ok s => .ok (some s)
  else
    .ok none

/-- `Relationship.get_self_url`. -/
def Relationship.get_self_url (r : Relationship) (obj : Value) :
    Except PyError (Option String) :=
  if r.self_url ≠ "" then
    match resolve_params obj r.self_url_kwargs with
    | .error e => .error e
    | .ok kwargs =>
      match strFormat r.self_url kwargs with
      | .error e => .error e
      | .ok s => .ok (some s)
  else
    .ok none

/-- `Relationship.get_resource_linkage`: one `\x7btype, id\x7d` object per
element (iterating `value`) when `many`, a single object otherwise. -/
def Relationship.get_resource_linkage (r : Relationship) (value : Value) :
    Except PyError Value :=
  if r.many then
    match pyIter value with
    | .error e => .error e
    | .ok items =>
      .ok (.vlist (items.map (fun each =>
        .vmap [("type", optStrValue r.type_),
               ("id", stringify (get_value r.id_field each each))])))
  else
    .ok (.vmap [("type", optStrValue r.type_),
                ("id", stringify (get_value r.id_field value value))])

/-- `Relationship.extract_value`: accumulate the missing-`id`,
missing-`type` and mismatched-`type` errors, raise them together if any,
otherwise return `data.get(\x27id\x27)`. -/
def Relationship.extract_value (r : Relationship) (data : Value) :
    Except PyError Value :=
  match pyContains data "id" with
  | .error e => .error e
  | .ok idIn =>
    let errs0 : List String := if ¬idIn then ["Must have an `id` field"] else []
    match pyContains data "type" with
    | .error e => .error e
    | .ok typeIn =>
      let errsE : Except PyError (List String) :=
        if ¬typeIn then
          .ok (errs0 ++ ["Must have a `type` field"])
        else
          match pyGetItem data "type" with
          | .error e => .error e
          | .ok t =>
            .ok (if ¬valueEqOptStr t r.type_ then errs0 ++ ["Invalid `type` specified"]
                 else errs0)
      match errsE with
      | .error e => .error e
      | .ok errs =>
        if errs ≠ [] then
          .error (.validation errs)
        else
          pyDictGet data "id"

/-- `marshmallow.utils.is_collection`: iterable but neither a string nor a
dict; among our value shapes, exactly the lists. -/
def is_collection : Value → Bool
  | .vlist _ => true
  | _ => false

/-- The list comprehension `[self.extract_value(item) for item in value]`:
left to right, aborting at the first item whose extraction raises. -/
def Relationship.extractAll (r : Relationship) : List Value → Except PyError (List Value)
  | [] => .ok []
  | item :: rest =>
    match r.extract_value item with
    | .error e => .error e
    | .ok v =>
      match r.extractAll rest with
      | .error e => .error e
      | .ok vs => .ok (v :: vs)

/-- `Relationship._deserialize`: list/scalar shape check, then
`extract_value` over the data (the list comprehension stops at the first
item whose extraction raises). -/
def Relationship._deserialize (r : Relationship) (value : Value) :
    Except PyError Value :=
  if r.many then
    if ¬is_collection value then
      .error (.validation ["Relationship is list-like"])
    else
      match value with
      | .vlist xs => (r.extractAll xs).map Value.vlist
      | _ => .error (.validation ["Relationship is list-like"])
  else
    if is_collection value then
      .error (.validation ["Relationship is not list-like"])
    else
      r.extract_value value

/-- `Relationship.deserialize`: require a dict with a `data` key, then hand
`value[\x27data\x27]` to `_deserialize` (the base `Field.deserialize` it goes
through is the host framework's pass-through for a provided value, which
the spec scopes out). -/
def Relationship.deserialize (r : Relationship) (value : Value) :
    Except PyError Value :=
  match value with
  | .vmap m =>
    if mapHasKey m "data" then
      r._deserialize ((mapLookup m "data").getD .vnull)
    else
      .error (.validation ["Must include a `data` key"])
  | _ => .error (.validation ["Must include a `data` key"])

/-- The `for item in value` loop of `_serialize` under `include_data`:
dump each item, raising on the first item whose dump has errors; every
append made before the raise stays in the shared `included_data` list,
which is returned alongside the outcome. -/
def dumpAll (sch : Schema) : List Value → List Value → Except PyError Unit × List Value
  | [], included => (.ok (), included)
  | item :: rest, included =>
    let result := sch.dump item
    if result.errors ≠ [] then
      (.error (.validation result.errors), included)
    else
      dumpAll sch rest (included ++ [result.data])

/-- fields.py lines 178-183: the `links` entries, `self` and `related`
keys in that order, each present exactly when its resolved URL is truthy. -/
def linksEntries (self_url related_url : Option String) : List (String × Value) :=
  (if optStrTruthy self_url then [("self", Value.vstr (self_url.getD ""))] else []) ++
  (if optStrTruthy related_url then [("related", Value.vstr (related_url.getD ""))] else [])

/-- fields.py line 178: `ret` after the links step — a `links` member is
present exactly when either resolved URL is truthy. -/
def retAfterLinks (self_url related_url : Option String) : List (String × Value) :=
  if optStrTruthy self_url || optStrTruthy related_url then
    [("links", .vmap (linksEntries self_url related_url))]
  else
    []

/-- fields.py lines 185-189: the `data` step of `_serialize` — when
`include_resource_object`, append a `data` member: `[]`/`None` for a
`None` value according to `many`, the resource linkage otherwise. -/
def Relationship.retWithData (r : Relationship) (value : Value)
    (ret0 : List (String × Value)) : Except PyError (List (String × Value)) :=
  if r.include_resource_object then
    if value.isNull then
      .ok (ret0 ++ [("data", if r.many then .vlist [] else .vnull)])
    else
      match r.get_resource_linkage value with
      | .error e => .error e
      | .ok lk => .ok (ret0 ++ [("data", lk)])
  else
    .ok ret0

/-- fields.py lines 191-204: the `include_data` side effect — dump the
value (each element when `many`) with the related schema, appending each
dump to the included collection, raising on a dump with errors. -/
def Relationship.sideloadIncluded (r : Relationship) (value : Value)
    (included : List Value) : Except PyError Unit × List Value :=
  if r.include_data ∧ ¬value.isNull then
    match r.schema with
    | none =>
      (.error (.attributeError "\x27NoneType\x27 object has no attribute \x27dump\x27"), included)
    | some sch =>
      if r.many then
        match pyIter value with
        | .error e => (.error e, included)
        | .ok items => dumpAll sch items included
      else
        let result := sch.dump value
        if result.errors ≠ [] then
          (.error (.validation result.errors), included)
        else
          (.ok (), included ++ [result.data])
  else
    (.ok (), included)

/-- `Relationship._serialize`: builds the relationship object (`links`
first, then `data`), then under `include_data` dumps the related value(s)
into the `included_data` list of the root schema, threaded explicitly;
the second component is the final state of that list even when the call
raises. -/
def Relationship._serialize (r : Relationship) (value : Value) (obj : Value)
    (included : List Value) : Except PyError Value × List Value :=
  match r.get_self_url obj with
  | .error e => (.error e, included)
  | .ok self_url =>
    match r.get_related_url obj with
    | .error e => (.error e, included)
    | .ok related_url =>
      match r.retWithData value (retAfterLinks self_url related_url) with
      | .error e => (.error e, included)
      | .ok ret1 =>
        match r.sideloadIncluded value included with
        | (.error e, included2) => (.error e, included2)
        | (.ok _, included2) => (.ok (.vmap ret1), included2)

/-! ### Concrete field instances and schemas used in the claims -/

/-- `Relationship(include_resource_object=True, type_="people")`: a
linkage-only to-one field. -/
def peopleRel : Relationship :=
  { related_url := "", related_url_kwargs := [], self_url := "", self_url_kwargs := [],
    many := false, include_resource_object := true, include_data := false,
    schema := none, type_ := some "people", id_field := "id" }

/-- Like `peopleRel` but with `id_field="uuid"`. -/
def uuidRel : Relationship :=
  { related_url := "", related_url_kwargs := [], self_url := "", self_url_kwargs := [],
    many := false, include_resource_object := true, include_data := false,
    schema := none, type_ := some "people", id_field := "uuid" }

/-- A related schema whose dump always succeeds, echoing the value. -/
def okSchema : Schema := ⟨fun v => ⟨v, []⟩⟩

/-- A related schema whose dump fails exactly on the value `2`. -/
def failTwoSchema : Schema :=
  ⟨fun v =>
    match v with
    | .vint 2 => ⟨.vnull, ["boom"]⟩
    | _ => ⟨v, []⟩⟩

/-- `Relationship(include_data=True, type_="comments", schema=..., many=True)`
with the failing schema. -/
def manyDataRel : Relationship :=
  { related_url := "", related_url_kwargs := [], self_url := "", self_url_kwargs := [],
    many := true, include_resource_object := true, include_data := true,
    schema := some failTwoSchema, type_ := some "comments", id_field := "id" }

/-- The same to-many `include_data` field with the always-succeeding schema. -/
def okManyRel : Relationship :=
  { related_url := "", related_url_kwargs := [], self_url := "", self_url_kwargs := [],
    many := true, include_resource_object := true, include_data := true,
    schema := some okSchema, type_ := some "comments", id_field := "id" }

/-- The to-one `include_data` field with the always-succeeding schema. -/
def oneDataRel : Relationship :=
  { related_url := "", related_url_kwargs := [], self_url := "", self_url_kwargs := [],
    many := false, include_resource_object := true, include_data := true,
    schema := some okSchema, type_ := some "people", id_field := "id" }

/-- A field whose related-URL template formats to the empty string: the
template is the single placeholder and the parameter is the literal `""`. -/
def emptyFmtRel : Relationship :=
  { related_url := "{a}", related_url_kwargs := [("a", .vstr "")],
    self_url := "", self_url_kwargs := [],
    many := false, include_resource_object := true, include_data := false,
    schema := none, type_ := some "people", id_field := "id" }

/-- A links-only field: `related_url="/posts/{post_id}/comments/"` with
`post_id` drawn from the attribute path `<id>` of the serialized object. -/
def linkedRel : Relationship :=
  { related_url := "/posts/{post_id}/comments/",
    related_url_kwargs := [("post_id", .vstr "<id>")],
    self_url := "", self_url_kwargs := [],
    many := false, include_resource_object := false, include_data := false,
    schema := none, type_ := none, id_field := "id" }

/-! ### Helper lemmas -/

theorem mapHasKey_eq_isSome (m : List (String × Value)) (k : String) :
    mapHasKey m k = (mapLookup m k).isSome := by
  induction m with
  | nil => rfl
  | cons p rest ih =>
    by_cases h : p.1 = k
    · simp [mapHasKey, mapLookup, assocFind, List.find?, h]
    · simp [mapHasKey, mapLookup, assocFind, List.find?, h] at ih ⊢
      simpa [mapHasKey, mapLookup, assocFind] using ih

theorem mapLookup_eq_none (l : List (String × Value)) (k : String)
    (h : ∀ p ∈ l, p.1 ≠ k) : mapLookup l k = none := by
  induction l with
  | nil => rfl
  | cons p rest ih =>
    have hp : p.1 ≠ k := h p (by simp)
    simp [mapLookup, assocFind, List.find?, hp]
    simpa [mapLookup, assocFind] using ih (fun q hq => h q (by simp [hq]))

theorem mapLookup_append_single (l : List (String × Value)) (k : String) (d : Value)
    (h : ∀ p ∈ l, p.1 ≠ k) : mapLookup (l ++ [(k, d)]) k = some d := by
  induction l with
  | nil => simp [mapLookup, assocFind, List.find?]
  | cons p rest ih =>
    have hp : p.1 ≠ k := h p (by simp)
    simp [mapLookup, assocFind, List.find?, hp]
    simpa [mapLookup, assocFind] using ih (fun q hq => h q (by simp [hq]))

theorem retAfterLinks_keys (s rl : Option String) :
    ∀ p ∈ retAfterLinks s rl, p.1 = "links" := by
  unfold retAfterLinks
  split <;> simp

theorem mapLookup_links_append (s rl : Option String) (tail : List (String × Value))
    (htail : ∀ p ∈ tail, p.1 ≠ "links") :
    mapLookup (retAfterLinks s rl ++ tail) "links" =
      (if optStrTruthy s || optStrTruthy rl then
        some (.vmap (linksEntries s rl))
       else none) := by
  unfold retAfterLinks
  split
  · simp [mapLookup, assocFind, List.find?]
  · simpa using mapLookup_eq_none tail "links" htail

/-- Characterization of `extract_value` on mapping items: the missing-`id`,
missing-`type` and mismatched-`type` errors are accumulated (in that
order) and raised together; on success the literal `id` value is returned
untouched. -/
theorem extract_value_vmap_eq (r : Relationship) (m : List (String × Value)) :
    r.extract_value (.vmap m) =
      (let idErrs : List String :=
        if mapHasKey m "id" then [] else ["Must have an `id` field"]
       let typeErrs : List String :=
        match mapLookup m "type" with
        | none => ["Must have a `type` field"]
        | some t => if valueEqOptStr t r.type_ then [] else ["Invalid `type` specified"]
       let errs := idErrs ++ typeErrs
       if errs = [] then .ok ((mapLookup m "id").getD .vnull)
       else .error (.validation errs)) := by
  have hkey := mapHasKey_eq_isSome m "type"
  cases hlt : mapLookup m "type" with
  | none =>
    have htk : mapHasKey m "type" = false := by rw [hkey, hlt]; rfl
    by_cases hid : mapHasKey m "id" <;>
      simp [Relationship.extract_value, pyContains, pyGetItem, pyDictGet, htk, hlt, hid]
  | some t =>
    have htk : mapHasKey m "type" = true := by rw [hkey, hlt]; rfl
    by_cases hid : mapHasKey m "id" <;>
      by_cases hv : valueEqOptStr t r.type_ = true <;>
      simp [Relationship.extract_value, pyContains, pyGetItem, pyDictGet, htk, hlt, hid, hv]

/-- `extract_value` on a mapping item either succeeds or raises a
validation error with a non-empty message list — never another kind of
exception. -/
theorem extract_value_vmap_ok_or_validation (r : Relationship) (m : List (String × Value)) :
    (∃ v, r.extract_value (.vmap m) = .ok v) ∨
    (∃ msgs, msgs ≠ [] ∧ r.extract_value (.vmap m) = .error (.validation msgs)) := by
  have hkey := mapHasKey_eq_isSome m "type"
  cases hlt : mapLookup m "type" with
  | none =>
    have htk : mapHasKey m "type" = false := by rw [hkey, hlt]; rfl
    by_cases hid : mapHasKey m "id"
    · refine .inr ⟨["Must have a `type` field"], by simp, ?_⟩
      simp [Relationship.extract_value, pyContains, htk, hid]
    · refine .inr ⟨["Must have an `id` field", "Must have a `type` field"], by simp, ?_⟩
      simp [Relationship.extract_value, pyContains, htk, hid]
  | some t =>
    have htk : mapHasKey m "type" = true := by rw [hkey, hlt]; rfl
    by_cases hv : valueEqOptStr t r.type_ = true
    · by_cases hid : mapHasKey m "id"
      · refine .inl ⟨(mapLookup m "id").getD .vnull, ?_⟩
        simp [Relationship.extract_value, pyContains, pyGetItem, pyDictGet, htk, hlt, hid, hv]
      · refine .inr ⟨["Must have an `id` field"], by simp, ?_⟩
        simp [Relationship.extract_value, pyContains, pyGetItem, htk, hlt, hid, hv]
    · by_cases hid : mapHasKey m "id"
      · refine .inr ⟨["Invalid `type` specified"], by simp, ?_⟩
        simp [Relationship.extract_value, pyContains, pyGetItem, htk, hlt, hid, hv]
      · refine .inr ⟨["Must have an `id` field", "Invalid `type` specified"], by simp, ?_⟩
        simp [Relationship.extract_value, pyContains, pyGetItem, htk, hlt, hid, hv]

/-- `deserialize` on a value that is not a dict, or a dict without a
`data` key, raises the missing-`data` validation error. -/
theorem deserialize_no_data (r : Relationship) (v : Value)
    (h : match v with
         | .vmap m => mapHasKey m "data" = false
         | _ => True) :
    r.deserialize v = .error (.validation ["Must include a `data` key"]) := by
  cases v <;> simp_all [Relationship.deserialize]

/-- `deserialize` on a dict with a `data` key hands the bound value to
`_deserialize`. -/
theorem deserialize_with_data (r : Relationship) (m : List (String × Value)) (d : Value)
    (hd : mapLookup m "data" = some d) :
    r.deserialize (.vmap m) = r._deserialize d := by
  have hk : mapHasKey m "data" = true := by rw [mapHasKey_eq_isSome, hd]; rfl
  simp [Relationship.deserialize, hk, hd]

theorem deserialize_many_scalar (r : Relationship) (d : Value)
    (hm : r.many = true) (hc : is_collection d = false) :
    r._deserialize d = .error (.validation ["Relationship is list-like"]) := by
  simp [Relationship._deserialize, hm, hc]

theorem deserialize_one_list (r : Relationship) (d : Value)
    (hm : r.many = false) (hc : is_collection d = true) :
    r._deserialize d = .error (.validation ["Relationship is not list-like"]) := by
  simp [Relationship._deserialize, hm, hc]

theorem deserialize_many_list (r : Relationship) (xs : List Value)
    (hm : r.many = true) :
    r._deserialize (.vlist xs) = (r.extractAll xs).map Value.vlist := by
  simp [Relationship._deserialize, hm, is_collection]

/-- `_serialize` once the two URL resolutions are known: the `data` step
followed by the `include_data` side effect. -/
theorem serialize_eq (r : Relationship) (value obj : Value) (inc : List Value)
    (s rl : Option String)
    (hs : r.get_self_url obj = .ok s) (hr : r.get_related_url obj = .ok rl) :
    r._serialize value obj inc =
      (match r.retWithData value (retAfterLinks s rl) with
       | .error e => (.error e, inc)
       | .ok ret1 =>
         match r.sideloadIncluded value inc with
         | (.error e, inc2) => (.error e, inc2)
         | (.ok _, inc2) => (.ok (.vmap ret1), inc2)) := by
  simp [Relationship._serialize, hs, hr]

theorem retWithData_ok_one (r : Relationship) (value : Value)
    (ret0 : List (String × Value)) (hm : r.many = false) :
    r.retWithData value ret0 = .ok ret0 ∨
    ∃ d, r.retWithData value ret0 = .ok (ret0 ++ [("data", d)]) := by
  unfold Relationship.retWithData
  by_cases hro : r.include_resource_object = true
  · by_cases hn : value.isNull = true
    · exact .inr ⟨Value.vnull, by simp [hro, hn, hm]⟩
    · exact .inr ⟨.vmap [("type", optStrValue r.type_),
          ("id", stringify (get_value r.id_field value value))],
        by simp [hro, hn, Relationship.get_resource_linkage, hm]⟩
  · exact .inl (by simp_all)

theorem retWithData_ok_many (r : Relationship) (xs : List Value)
    (ret0 : List (String × Value)) :
    r.retWithData (.vlist xs) ret0 = .ok ret0 ∨
    ∃ d, r.retWithData (.vlist xs) ret0 = .ok (ret0 ++ [("data", d)]) := by
  unfold Relationship.retWithData
  by_cases hro : r.include_resource_object = true
  · by_cases hmany : r.many = true
    · exact .inr ⟨.vlist (xs.map (fun each =>
          .vmap [("type", optStrValue r.type_),
                 ("id", stringify (get_value r.id_field each each))])),
        by simp [hro, Value.isNull, Relationship.get_resource_linkage, hmany, pyIter]⟩
    · exact .inr ⟨.vmap [("type", optStrValue r.type_),
          ("id", stringify (get_value r.id_field (.vlist xs) (.vlist xs)))],
        by simp [hro, Value.isNull, Relationship.get_resource_linkage, hmany]⟩
  · exact .inl (by simp_all)

theorem sideload_one_ok (r : Relationship) (value : Value) (inc : List Value) (sch : Schema)
    (hd : r.include_data = true) (hsch : r.schema = some sch)
    (hm : r.many = false) (hn : value.isNull = false)
    (he : (sch.dump value).errors = []) :
    r.sideloadIncluded value inc = (.ok (), inc ++ [(sch.dump value).data]) := by
  simp [Relationship.sideloadIncluded, hd, hn, hsch, hm, he]

theorem sideload_one_fail (r : Relationship) (value : Value) (inc : List Value) (sch : Schema)
    (hd : r.include_data = true) (hsch : r.schema = some sch)
    (hm : r.many = false) (hn : value.isNull = false)
    (he : (sch.dump value).errors ≠ []) :
    r.sideloadIncluded value inc = (.error (.validation (sch.dump value).errors), inc) := by
  simp [Relationship.sideloadIncluded, hd, hn, hsch, hm, he]

theorem sideload_many (r : Relationship) (xs : List Value) (inc : List Value) (sch : Schema)
    (hd : r.include_data = true) (hsch : r.schema = some sch) (hm : r.many = true) :
    r.sideloadIncluded (.vlist xs) inc = dumpAll sch xs inc := by
  simp [Relationship.sideloadIncluded, hd, hsch, hm, pyIter, Value.isNull]

theorem dumpAll_ok (sch : Schema) (xs inc : List Value)
    (h : ∀ x ∈ xs, (sch.dump x).errors = []) :
    dumpAll sch xs inc = (.ok (), inc ++ xs.map (fun x => (sch.dump x).data)) := by
  induction xs generalizing inc with
  | nil => simp [dumpAll]
  | cons x rest ih =>
    have hx : (sch.dump x).errors = [] := h x (by simp)
    have ih2 := ih (inc ++ [(sch.dump x).data]) (fun y hy => h y (by simp [hy]))
    simp [dumpAll, hx, ih2]

theorem dumpAll_fail (sch : Schema) (pre : List Value) (bad : Value) (rest inc : List Value)
    (hpre : ∀ x ∈ pre, (sch.dump x).errors = []) (hbad : (sch.dump bad).errors ≠ []) :
    dumpAll sch (pre ++ bad :: rest) inc =
      (.error (.validation (sch.dump bad).errors),
       inc ++ pre.map (fun x => (sch.dump x).data)) := by
  induction pre generalizing inc with
  | nil => simp [dumpAll, hbad]
  | cons x p ih =>
    have hx : (sch.dump x).errors = [] := hpre x (by simp)
    have ih2 := ih (inc ++ [(sch.dump x).data]) (fun y hy => hpre y (by simp [hy]))
    simp [dumpAll, hx, ih2]

theorem extractAll_ok_length (r : Relationship) (xs ids : List Value)
    (h : r.extractAll xs = .ok ids) : ids.length = xs.length := by
  induction xs generalizing ids with
  | nil =>
    simp [Relationship.extractAll] at h
    simp [← h]
  | cons x rest ih =>
    cases hx : r.extract_value x with
    | error e => simp [Relationship.extractAll, hx] at h
    | ok v =>
      cases hrest : r.extractAll rest with
      | error e => simp [Relationship.extractAll, hx, hrest] at h
      | ok vs =>
        simp [Relationship.extractAll, hx, hrest] at h
        simp [← h, ih vs hrest]

theorem extractAll_ok_get (r : Relationship) (xs ids : List Value)
    (h : r.extractAll xs = .ok ids) :
    ∀ (i : Nat) (hi : i < xs.length) (hj : i < ids.length),
      r.extract_value (xs.get ⟨i, hi⟩) = .ok (ids.get ⟨i, hj⟩) := by
  induction xs generalizing ids with
  | nil => intro i hi; simp at hi
  | cons x rest ih =>
    cases hx : r.extract_value x with
    | error e => simp [Relationship.extractAll, hx] at h
    | ok v =>
      cases hrest : r.extractAll rest with
      | error e => simp [Relationship.extractAll, hx, hrest] at h
      | ok vs =>
        simp [Relationship.extractAll, hx, hrest] at h
        intro i hi hj
        cases i with
        | zero => simpa [← h] using hx
        | succ n =>
          have hlen : vs.length = rest.length := extractAll_ok_length r rest vs hrest
          have hn : n < rest.length := by simpa using hi
          have hn2 : n < vs.length := by rw [hlen]; exact hn
          have := ih vs hrest n hn hn2
          simpa [← h] using this

/-! ### Claims -/

/-- C2: round-trip of resource linkage for `many=false`: serializing a
related object with id `"7"` under `type_="people"` and
`include_resource_object=True` yields `data = {"type": "people", "id": "7"}`;
deserializing `{"data": {"type": "people", "id": "7"}}` on the same field
yields `"7"`; deserializing with mismatched type `{"type": "x", "id": "7"}`
fails with the error "Invalid `type` specified". -/
theorem claim_C2 :
    Relationship.init "" [] "" [] true false none false (some "people") none = .ok peopleRel ∧
    (peopleRel._serialize (.vmap [("id", .vstr "7")]) .vnull []).1 =
      .ok (.vmap [("data", .vmap [("type", .vstr "people"), ("id", .vstr "7")])]) ∧
    peopleRel.deserialize
        (.vmap [("data", .vmap [("type", .vstr "people"), ("id", .vstr "7")])]) =
      .ok (.vstr "7") ∧
    peopleRel.deserialize
        (.vmap [("data", .vmap [("type", .vstr "x"), ("id", .vstr "7")])]) =
      .error (.validation ["Invalid `type` specified"]) :=
  ⟨rfl, rfl, rfl, rfl⟩

/-- C3: construction fails fast with a configuration error whenever
`include_resource_object=True` is given without `type_`, or
`include_data=True` is given without `type_`, or `include_data=True` is
given without `schema`; with valid configuration, construction succeeds
(the `Except`-valued constructor decides this at construction time). -/
theorem claim_C3 :
    (∀ ru rk su sk idata sch many idf,
      ∃ msg, Relationship.init ru rk su sk true idata sch many none idf = .error msg) ∧
    (∀ ru rk su sk iro sch many idf,
      ∃ msg, Relationship.init ru rk su sk iro true sch many none idf = .error msg) ∧
    (∀ ru rk su sk iro many t idf,
      ∃ msg, Relationship.init ru rk su sk iro true none many t idf = .error msg) ∧
    (∀ ru rk su sk iro idata sch many t idf,
      (iro = true → optStrTruthy t = true) →
      (idata = true → optStrTruthy t = true ∧ sch.isSome = true) →
      ∃ r, Relationship.init ru rk su sk iro idata sch many t idf = .ok r) := by
  refine ⟨?_, ?_, ?_, ?_⟩
  · intro ru rk su sk idata sch many idf
    cases hE : Relationship.init ru rk su sk true idata sch many none idf with
    | error msg => exact ⟨msg, rfl⟩
    | ok r => exact absurd hE (by simp [Relationship.init, optStrTruthy])
  · intro ru rk su sk iro sch many idf
    cases hE : Relationship.init ru rk su sk iro true sch many none idf with
    | error msg => exact ⟨msg, rfl⟩
    | ok r =>
      exact absurd hE (by cases iro <;> simp [Relationship.init, optStrTruthy])
  · intro ru rk su sk iro many t idf
    cases hE : Relationship.init ru rk su sk iro true none many t idf with
    | error msg => exact ⟨msg, rfl⟩
    | ok r =>
      refine absurd hE ?_
      by_cases ht : optStrTruthy t = true <;> cases iro <;>
        simp [Relationship.init, ht]
  · intro ru rk su sk iro idata sch many t idf hiro hidata
    cases hE : Relationship.init ru rk su sk iro idata sch many t idf with
    | ok r => exact ⟨r, rfl⟩
    | error msg =>
      refine absurd hE ?_
      cases iro with
      | false =>
        cases idata with
        | false => simp [Relationship.init]
        | true =>
          obtain ⟨ht, hsch⟩ := hidata rfl
          simp [Relationship.init, ht, Option.isSome_iff_ne_none.mp hsch]
      | true =>
        have ht := hiro rfl
        cases idata with
        | false => simp [Relationship.init, ht]
        | true =>
          obtain ⟨_, hsch⟩ := hidata rfl
          simp [Relationship.init, ht, Option.isSome_iff_ne_none.mp hsch]

/-- C3 witness: concrete instances of each part (a bad and a good
configuration). -/
theorem claim_C3_witness :
    (∃ msg, Relationship.init "" [] "" [] true false none false none none = .error msg) ∧
    (∃ r, Relationship.init "" [] "" [] true false none false (some "people") none = .ok r) :=
  ⟨claim_C3.1 "" [] "" [] false none false none,
   claim_C3.2.2.2 "" [] "" [] true false none false (some "people") none
     (fun _ => rfl) (fun h => nomatch h)⟩

/-- C4: for every successfully constructed field, `include_data` implies
`include_resource_object`: the constructor stores
`include_resource_object or include_data`, so the implication is an
invariant of the (immutable) field. -/
theorem claim_C4 (ru : String) (rk : List (String × Value)) (su : String)
    (sk : List (String × Value)) (iro idata : Bool) (sch : Option Schema) (many : Bool)
    (t idf : Option String) (r : Relationship)
    (h : Relationship.init ru rk su sk iro idata sch many t idf = .ok r) :
    r.include_data = true → r.include_resource_object = true := by
  unfold Relationship.init at h
  split at h
  · exact absurd h (by simp)
  · split at h
    · exact absurd h (by simp)
    · split at h
      · exact absurd h (by simp)
      · injection h with h
        subst h
        intro hd
        simp only at hd ⊢
        simp [hd]

/-- C4 witness: constructing with `include_data=True` and
`include_resource_object=False` still yields a field whose
`include_resource_object` flag is `True`. -/
theorem claim_C4_witness : oneDataRel.include_resource_object = true :=
  claim_C4 "" [] "" [] false true (some okSchema) false (some "people") none oneDataRel rfl rfl

/-- C7: `extract_value` accumulates the per-item errors instead of
short-circuiting, raises them together, and on success returns the item's
literal `id` value unchanged: characterization over mapping items, plus
the concrete instances of the claim (missing `id`, missing `type`, type
mismatch, both missing at once, and an uncoerced success). -/
theorem claim_C7 :
    (∀ (r : Relationship) (m : List (String × Value)),
      r.extract_value (.vmap m) =
        (let idErrs : List String :=
          if mapHasKey m "id" then [] else ["Must have an `id` field"]
         let typeErrs : List String :=
          match mapLookup m "type" with
          | none => ["Must have a `type` field"]
          | some t => if valueEqOptStr t r.type_ then [] else ["Invalid `type` specified"]
         let errs := idErrs ++ typeErrs
         if errs = [] then .ok ((mapLookup m "id").getD .vnull)
         else .error (.validation errs))) ∧
    peopleRel.extract_value (.vmap [("type", .vstr "people")]) =
      .error (.validation ["Must have an `id` field"]) ∧
    peopleRel.extract_value (.vmap [("id", .vstr "1")]) =
      .error (.validation ["Must have a `type` field"]) ∧
    peopleRel.extract_value (.vmap [("id", .vstr "1"), ("type", .vstr "x")]) =
      .error (.validation ["Invalid `type` specified"]) ∧
    peopleRel.extract_value (.vmap []) =
      .error (.validation ["Must have an `id` field", "Must have a `type` field"]) ∧
    peopleRel.extract_value (.vmap [("type", .vstr "people"), ("id", .vint 42)]) =
      .ok (.vint 42) := by
  refine ⟨?_, rfl, rfl, rfl, rfl, rfl⟩
  intro r m
  have hkey := mapHasKey_eq_isSome m "type"
  cases hlt : mapLookup m "type" with
  | none =>
    have htk : mapHasKey m "type" = false := by rw [hkey, hlt]; rfl
    by_cases hid : mapHasKey m "id" <;>
      simp [Relationship.extract_value, pyContains, pyGetItem, pyDictGet, htk, hlt, hid]
  | some t =>
    have htk : mapHasKey m "type" = true := by rw [hkey, hlt]; rfl
    by_cases hid : mapHasKey m "id" <;>
      by_cases hv : valueEqOptStr t r.type_ = true <;>
      simp [Relationship.extract_value, pyContains, pyGetItem, pyDictGet, htk, hlt, hid, hv]

/-- C1 counterexample: with `include_data=True` and `many=True`, when the
second element's dump fails, the serialize call raises the validation
error but the first element's serialized resource remains appended to the
shared included collection — the claim's "no partial output" is false. -/
theorem claim_C1_counterexample :
    (manyDataRel._serialize (.vlist [.vint 1, .vint 2]) .vnull []).1 =
      .error (.validation ["boom"]) ∧
    (manyDataRel._serialize (.vlist [.vint 1, .vint 2]) .vnull []).2 = [.vint 1] :=
  ⟨rfl, rfl⟩

/-- C8 counterexample: with template `"{a}"` and literal parameter `""`,
the resolved related URL is the non-null string `""`, yet the serialized
result contains no `links` member at all — "whenever either resolved URL
is non-null the result contains a links member" is false. -/
theorem claim_C8_counterexample :
    emptyFmtRel.get_related_url (.vmap []) = .ok (some "") ∧
    (emptyFmtRel._serialize .vnull (.vmap []) []).1 = .ok (.vmap [("data", .vnull)]) :=
  ⟨rfl, rfl⟩

/-- C9 counterexample: a `data` item that is not a mapping (here the
integer `5`) makes `extract_value` evaluate `"id" not in 5`, which raises
a `TypeError`, not a structured validation error. -/
theorem claim_C9_counterexample :
    peopleRel.deserialize (.vmap [("data", .vint 5)]) =
      .error (.typeError "argument of type \x27int\x27 is not iterable") :=
  rfl

/-- `retWithData` only ever extends `ret0` with a `data` entry (or leaves
it unchanged). -/
theorem retWithData_shape (r : Relationship) (value : Value)
    (ret0 ret1 : List (String × Value))
    (h : r.retWithData value ret0 = .ok ret1) :
    ret1 = ret0 ∨ ∃ d, ret1 = ret0 ++ [("data", d)] := by
  unfold Relationship.retWithData at h
  split at h
  · split at h
    · injection h with h
      exact .inr ⟨_, h.symm⟩
    · split at h
      · simp_all
      · injection h with h
        exact .inr ⟨_, h.symm⟩
  · injection h with h
    exact .inl h.symm

/-- C5: with `include_resource_object`, serializing a null value emits a
`data` member equal to `[]` when `many` and `None` otherwise; when the
value is present and the call returns, the `data` member is the resource
linkage built from the value. -/
theorem claim_C5 (r : Relationship) (obj : Value) (inc : List Value)
    (s rl : Option String)
    (hs : r.get_self_url obj = .ok s) (hr : r.get_related_url obj = .ok rl)
    (hro : r.include_resource_object = true) :
    (∃ ret, (r._serialize .vnull obj inc).1 = .ok (.vmap ret) ∧
      mapLookup ret "data" = some (if r.many then .vlist [] else .vnull)) ∧
    (∀ value lk ret, value.isNull = false →
      r.get_resource_linkage value = .ok lk →
      (r._serialize value obj inc).1 = .ok (.vmap ret) →
      mapLookup ret "data" = some lk) := by
  constructor
  · rw [serialize_eq r .vnull obj inc s rl hs hr]
    have h1 : r.retWithData .vnull (retAfterLinks s rl) =
        .ok (retAfterLinks s rl ++
          [("data", if r.many then Value.vlist [] else Value.vnull)]) := by
      simp [Relationship.retWithData, hro, Value.isNull]
    have h2 : r.sideloadIncluded .vnull inc = (.ok (), inc) := by
      simp [Relationship.sideloadIncluded, Value.isNull]
    rw [h1, h2]
    refine ⟨_, rfl, ?_⟩
    exact mapLookup_append_single _ "data" _
      (fun p hp => by rw [retAfterLinks_keys s rl p hp]; simp)
  · intro value lk ret hn hlk hres
    rw [serialize_eq r value obj inc s rl hs hr] at hres
    have h1 : r.retWithData value (retAfterLinks s rl) =
        .ok (retAfterLinks s rl ++ [("data", lk)]) := by
      simp [Relationship.retWithData, hro, hn, hlk]
    rw [h1] at hres
    rcases hsl : r.sideloadIncluded value inc with ⟨out, inc2⟩
    rw [hsl] at hres
    cases out with
    | error e => simp at hres
    | ok u =>
      simp at hres
      rw [← hres]
      exact mapLookup_append_single _ "data" _
        (fun p hp => by rw [retAfterLinks_keys s rl p hp]; simp)

/-- C5 witness: the null to-one case on a concrete linkage field. -/
theorem claim_C5_witness :
    ∃ ret, (peopleRel._serialize .vnull .vnull []).1 = .ok (.vmap ret) ∧
      mapLookup ret "data" = some (if peopleRel.many then Value.vlist [] else Value.vnull) :=
  (claim_C5 peopleRel .vnull [] none none rfl rfl rfl).1

/-- C6: deserialization shape checks — a non-mapping or `data`-less input
fails with the missing-`data` error; a scalar `data` with `many` fails
with "Relationship is list-like"; a list `data` without `many` fails with
"Relationship is not list-like"; and a list `data` with `many` yields the
extracted ids positionally, in input order. -/
theorem claim_C6 (r : Relationship) :
    (∀ v, (match v with
           | .vmap m => mapHasKey m "data" = false
           | _ => True) →
      r.deserialize v = .error (.validation ["Must include a `data` key"])) ∧
    (∀ m d, r.many = true → mapLookup m "data" = some d → is_collection d = false →
      r.deserialize (.vmap m) = .error (.validation ["Relationship is list-like"])) ∧
    (∀ m d, r.many = false → mapLookup m "data" = some d → is_collection d = true →
      r.deserialize (.vmap m) = .error (.validation ["Relationship is not list-like"])) ∧
    (∀ m xs ids, r.many = true → mapLookup m "data" = some (.vlist xs) →
      r.extractAll xs = .ok ids →
      r.deserialize (.vmap m) = .ok (.vlist ids) ∧ ids.length = xs.length ∧
      ∀ (i : Nat) (hi : i < xs.length) (hj : i < ids.length),
        r.extract_value (xs.get ⟨i, hi⟩) = .ok (ids.get ⟨i, hj⟩)) := by
  refine ⟨deserialize_no_data r, ?_, ?_, ?_⟩
  · intro m d hm hd hc
    rw [deserialize_with_data r m d hd]
    exact deserialize_many_scalar r d hm hc
  · intro m d hm hd hc
    rw [deserialize_with_data r m d hd]
    exact deserialize_one_list r d hm hc
  · intro m xs ids hm hd hall
    refine ⟨?_, extractAll_ok_length r xs ids hall, extractAll_ok_get r xs ids hall⟩
    rw [deserialize_with_data r m (.vlist xs) hd, deserialize_many_list r xs hm, hall]
    rfl

/-- C6 witness: the shape errors and the ordered success on a concrete
to-many field. -/
theorem claim_C6_witness :
    manyDataRel.deserialize (.vmap []) =
      .error (.validation ["Must include a `data` key"]) ∧
    manyDataRel.deserialize (.vmap [("data", .vint 5)]) =
      .error (.validation ["Relationship is list-like"]) ∧
    manyDataRel.deserialize
        (.vmap [("data", .vlist [.vmap [("type", .vstr "comments"), ("id", .vstr "1")],
                                 .vmap [("type", .vstr "comments"), ("id", .vstr "2")]])]) =
      .ok (.vlist [.vstr "1", .vstr "2"]) :=
  ⟨(claim_C6 manyDataRel).1 (.vmap []) rfl,
   (claim_C6 manyDataRel).2.1 [("data", .vint 5)] (.vint 5) rfl rfl rfl,
   ((claim_C6 manyDataRel).2.2.2
      [("data", .vlist [.vmap [("type", .vstr "comments"), ("id", .vstr "1")],
                        .vmap [("type", .vstr "comments"), ("id", .vstr "2")]])]
      [.vmap [("type", .vstr "comments"), ("id", .vstr "1")],
       .vmap [("type", .vstr "comments"), ("id", .vstr "2")]]
      [.vstr "1", .vstr "2"] rfl rfl rfl).1⟩

/-- C9 (amended): the enumerated malformed shapes surface as structured
validation errors — missing `data` key, list-vs-scalar mismatches, and
any mapping item (missing `id`/`type`, mismatched `type`) — but an item
that is not a mapping escapes as a `TypeError` (e.g. an integer item),
not as a validation error. -/
theorem claim_C9 (r : Relationship) :
    (∀ v, (match v with
           | .vmap m => mapHasKey m "data" = false
           | _ => True) →
      r.deserialize v = .error (.validation ["Must include a `data` key"])) ∧
    (∀ m d, r.many = true → mapLookup m "data" = some d → is_collection d = false →
      r.deserialize (.vmap m) = .error (.validation ["Relationship is list-like"])) ∧
    (∀ m d, r.many = false → mapLookup m "data" = some d → is_collection d = true →
      r.deserialize (.vmap m) = .error (.validation ["Relationship is not list-like"])) ∧
    (∀ mi, (∃ v, r.extract_value (.vmap mi) = .ok v) ∨
      (∃ msgs, msgs ≠ [] ∧ r.extract_value (.vmap mi) = .error (.validation msgs))) ∧
    (∀ n : Int, r.extract_value (.vint n) =
      .error (.typeError "argument of type \x27int\x27 is not iterable")) := by
  refine ⟨deserialize_no_data r, ?_, ?_, extract_value_vmap_ok_or_validation r, ?_⟩
  · intro m d hm hd hc
    rw [deserialize_with_data r m d hd]
    exact deserialize_many_scalar r d hm hc
  · intro m d hm hd hc
    rw [deserialize_with_data r m d hd]
    exact deserialize_one_list r d hm hc
  · intro n
    rfl

/-- C9 witness: a missing-`data` validation error and the integer-item
`TypeError` escape on a concrete field. -/
theorem claim_C9_witness :
    peopleRel.deserialize (.vmap [("x", .vnull)]) =
      .error (.validation ["Must include a `data` key"]) ∧
    peopleRel.extract_value (.vint 5) =
      .error (.typeError "argument of type \x27int\x27 is not iterable") :=
  ⟨(claim_C9 peopleRel).1 (.vmap [("x", .vnull)]) rfl,
   (claim_C9 peopleRel).2.2.2.2 5⟩

/-- C10: deserialization always returns the literal `id` key — it depends
only on `type_`, never on `id_field` — whereas serialization pulls the
linkage id from the `id_field` attribute (falling back to the element
itself when absent), so a field with a non-default `id_field` is not
symmetric between the two directions. -/
theorem claim_C10 :
    (∀ (r r2 : Relationship) (d : Value), r.type_ = r2.type_ →
      r.extract_value d = r2.extract_value d) ∧
    (∀ (r : Relationship) (value : Value), r.many = false →
      r.get_resource_linkage value =
        .ok (.vmap [("type", optStrValue r.type_),
                    ("id", stringify (get_value r.id_field value value))])) ∧
    Relationship.init "" [] "" [] true false none false (some "people") (some "uuid") =
      .ok uuidRel ∧
    uuidRel.get_resource_linkage (.vmap [("uuid", .vstr "9"), ("id", .vstr "1")]) =
      .ok (.vmap [("type", .vstr "people"), ("id", .vstr "9")]) ∧
    uuidRel.deserialize
        (.vmap [("data", .vmap [("type", .vstr "people"), ("id", .vstr "1")])]) =
      .ok (.vstr "1") ∧
    uuidRel.get_resource_linkage (.vstr "42") =
      .ok (.vmap [("type", .vstr "people"), ("id", .vstr "42")]) := by
  refine ⟨?_, ?_, rfl, rfl, rfl, rfl⟩
  · intro r r2 d h
    unfold Relationship.extract_value
    rw [h]
  · intro r value hm
    simp [Relationship.get_resource_linkage, hm]

/-- C10 witness: two fields differing only in `id_field` deserialize
identically. -/
theorem claim_C10_witness :
    uuidRel.extract_value (.vmap [("type", .vstr "people"), ("id", .vstr "1")]) =
      peopleRel.extract_value (.vmap [("type", .vstr "people"), ("id", .vstr "1")]) :=
  claim_C10.1 uuidRel peopleRel (.vmap [("type", .vstr "people"), ("id", .vstr "1")]) rfl

/-- C8 (amended): an empty URL template resolves to `None` and the link is
omitted; a `links` member is emitted exactly when either resolved URL is
truthy (non-null and non-empty), holding exactly the truthy ones under
`self` / `related`; a resolved URL equal to the empty string is non-null
yet omitted (see the counterexample). -/
theorem claim_C8 (r : Relationship) (obj : Value) (inc : List Value)
    (s rl : Option String)
    (hs : r.get_self_url obj = .ok s) (hr : r.get_related_url obj = .ok rl) :
    (r.related_url = "" → rl = none) ∧
    (r.self_url = "" → s = none) ∧
    (∀ value ret, (r._serialize value obj inc).1 = .ok (.vmap ret) →
      mapLookup ret "links" =
        (if optStrTruthy s || optStrTruthy rl then
          some (.vmap (linksEntries s rl))
         else none)) := by
  refine ⟨?_, ?_, ?_⟩
  · intro h
    unfold Relationship.get_related_url at hr
    rw [h] at hr
    simp at hr
    exact hr.symm
  · intro h
    unfold Relationship.get_self_url at hs
    rw [h] at hs
    simp at hs
    exact hs.symm
  · intro value ret hres
    rw [serialize_eq r value obj inc s rl hs hr] at hres
    rcases hrd : r.retWithData value (retAfterLinks s rl) with e | ret1
    · rw [hrd] at hres
      simp at hres
    · rw [hrd] at hres
      rcases hsl : r.sideloadIncluded value inc with ⟨out, inc2⟩
      rw [hsl] at hres
      cases out with
      | error e => simp at hres
      | ok u =>
        simp at hres
        rcases retWithData_shape r value _ ret1 hrd with hsh | ⟨d, hsh⟩
        · rw [← hres, hsh]
          have := mapLookup_links_append s rl [] (by simp)
          simpa using this
        · rw [← hres, hsh]
          exact mapLookup_links_append s rl [("data", d)] (by simp)

/-- C8 witness: a related link resolved from an attribute path produces a
`links` member holding exactly that link. -/
theorem claim_C8_witness :
    mapLookup [("links", Value.vmap [("related", .vstr "/posts/42/comments/")])] "links" =
      (if optStrTruthy (none : Option String) || optStrTruthy (some "/posts/42/comments/")
       then some (.vmap (linksEntries none (some "/posts/42/comments/")))
       else none) :=
  (claim_C8 linkedRel (.vmap [("id", .vint 42)]) [] none (some "/posts/42/comments/")
    rfl rfl).2.2 .vnull
    [("links", Value.vmap [("related", .vstr "/posts/42/comments/")])] rfl

/-- C1 (amended): with `include_data`, a dump failure aborts the call with
that dump error, but for a to-many value the resources dumped before the
failing element remain appended to the shared included collection (a
to-one failure appends nothing); on success a to-one relationship appends
exactly one resource and a to-many relationship with n elements appends
exactly n, in input order. -/
theorem claim_C1 (r : Relationship) (obj : Value) (inc : List Value) (sch : Schema)
    (s rl : Option String)
    (hs : r.get_self_url obj = .ok s) (hr : r.get_related_url obj = .ok rl)
    (hsch : r.schema = some sch) (hd : r.include_data = true) :
    (∀ value, r.many = false → value.isNull = false → (sch.dump value).errors = [] →
      (r._serialize value obj inc).2 = inc ++ [(sch.dump value).data] ∧
      ∃ ret, (r._serialize value obj inc).1 = .ok ret) ∧
    (∀ xs, r.many = true → (∀ x ∈ xs, (sch.dump x).errors = []) →
      (r._serialize (.vlist xs) obj inc).2 = inc ++ xs.map (fun x => (sch.dump x).data) ∧
      ∃ ret, (r._serialize (.vlist xs) obj inc).1 = .ok ret) ∧
    (∀ pre bad rest, r.many = true → (∀ x ∈ pre, (sch.dump x).errors = []) →
      (sch.dump bad).errors ≠ [] →
      (r._serialize (.vlist (pre ++ bad :: rest)) obj inc).1 =
        .error (.validation (sch.dump bad).errors) ∧
      (r._serialize (.vlist (pre ++ bad :: rest)) obj inc).2 =
        inc ++ pre.map (fun x => (sch.dump x).data)) ∧
    (∀ value, r.many = false → value.isNull = false → (sch.dump value).errors ≠ [] →
      (r._serialize value obj inc).1 = .error (.validation (sch.dump value).errors) ∧
      (r._serialize value obj inc).2 = inc) := by
  refine ⟨?_, ?_, ?_, ?_⟩
  · intro value hm hn he
    rw [serialize_eq r value obj inc s rl hs hr]
    rcases retWithData_ok_one r value (retAfterLinks s rl) hm with h | ⟨d, h⟩ <;>
      rw [h, sideload_one_ok r value inc sch hd hsch hm hn he] <;>
      exact ⟨rfl, _, rfl⟩
  · intro xs hm hall
    rw [serialize_eq r (.vlist xs) obj inc s rl hs hr]
    rcases retWithData_ok_many r xs (retAfterLinks s rl) with h | ⟨d, h⟩ <;>
      rw [h, sideload_many r xs inc sch hd hsch hm, dumpAll_ok sch xs inc hall] <;>
      exact ⟨rfl, _, rfl⟩
  · intro pre bad rest hm hpre hbad
    rw [serialize_eq r (.vlist (pre ++ bad :: rest)) obj inc s rl hs hr]
    rcases retWithData_ok_many r (pre ++ bad :: rest) (retAfterLinks s rl) with h | ⟨d, h⟩ <;>
      rw [h, sideload_many r (pre ++ bad :: rest) inc sch hd hsch hm,
        dumpAll_fail sch pre bad rest inc hpre hbad] <;>
      exact ⟨rfl, rfl⟩
  · intro value hm hn he
    rw [serialize_eq r value obj inc s rl hs hr]
    rcases retWithData_ok_one r value (retAfterLinks s rl) hm with h | ⟨d, h⟩ <;>
      rw [h, sideload_one_fail r value inc sch hd hsch hm hn he] <;>
      exact ⟨rfl, rfl⟩

/-- C1 witness: the to-many success case on a concrete field — two
elements append exactly two resources, in input order. -/
theorem claim_C1_witness :
    (okManyRel._serialize (.vlist [.vint 1, .vint 2]) .vnull []).2 =
      [] ++ [Value.vint 1, Value.vint 2].map (fun x => (okSchema.dump x).data) ∧
    ∃ ret, (okManyRel._serialize (.vlist [.vint 1, .vint 2]) .vnull []).1 = .ok ret :=
  (claim_C1 okManyRel .vnull [] okSchema none none rfl rfl rfl rfl).2.1
    [.vint 1, .vint 2] rfl (fun _ _ => rfl)

end MarshmallowJsonapi
